import Mathlib

/-!
Verification development for the trading-runtime session layer
(`trader/trading/trading_runtime.py`): a shallow embedding of the
connection lifecycle manager and subscription reconciliation engine
(`Trader.connect`, `Trader.setup_subscriptions`,
`Trader.update_portfolio_universe`, `Trader.temp_handle_order`,
`Trader.cancel_order`), with theorems settling the specified properties.

Conventions of the embedding:
* Python exceptions are modelled with `Except`; an `Except.error s`
  carries the session state as it stood at the moment of the raise, so
  "raises before any side effect" is expressed as `.error s` with `s`
  the input state.
* Machine floats of the order-sizing calculator are modelled as `ℚ`
  (the spec speaks of exact arithmetic on notional/price).
* External gateway behaviour (contract-details resolution, tick
  streams, connection attempts) is passed in as explicit function or
  list parameters.
-/

/-- A raw gateway contract reference.  `conId` is the stable instrument
key; `ctag` stands for all remaining payload, so two `Contract` values
with the same stable key can still be distinct objects (the repeated
gateway objects the spec warns about). -/
structure Contract where
  conId : Nat
  ctag : Nat
deriving DecidableEq, Repr

/-- A portfolio item as delivered by the gateway's portfolio stream:
it carries the instrument's contract. -/
structure PortfolioItem where
  contract : Contract
deriving DecidableEq, Repr

/-- A resolved instrument definition stored in a universe.  `conId` is
the stable instrument key; `tag` stands for the rest of the resolved
payload. -/
structure SecurityDefinition where
  conId : Nat
  tag : Nat
deriving DecidableEq, Repr

/-- An order as held in the Book: its id and the client/session id that
placed it (`order.clientId` in the source). -/
structure Order where
  orderId : Nat
  clientId : Nat
deriving DecidableEq, Repr

/-- A trade returned by the gateway for a cancelled order. -/
structure Trade where
  order : Order
deriving DecidableEq, Repr

/-- A market-data tick; `bid` is the field the order-sizing code reads. -/
structure Ticker where
  bid : ℚ
deriving DecidableEq, Repr

/-- Modelled from the spec: `ListHelper.isin` (repository code outside
`src/`) — the stable-key membership scan used by
`update_portfolio_universe`; true iff some element of the list
satisfies the predicate. -/
def ListHelper.isin (xs : List α) (p : α → Bool) : Bool :=
  xs.any p

/-- Modelled from the spec: `Universe.find_contract` (repository code
outside `src/`) — looks an instrument up in a universe's definitions by
the contract's stable key. -/
def Universe.find_contract (security_definitions : List SecurityDefinition)
    (contract : Contract) : Option SecurityDefinition :=
  security_definitions.find? (fun definition => definition.conId == contract.conId)

/-- The session state mutated by `Trader`'s reconciliation flow:
* `portfolioUniverse` — the persisted `"portfolio"` universe's
  `security_definitions` (the `universe_accessor` store collapses to
  this list, since `get('portfolio')` rereads it and `update` rewrites
  it on every call);
* `market_data_subscriptions` — the keys of the
  `market_data_subscriptions` dict, in insertion order;
* `portfolio_items` — the Portfolio ledger fed by
  `portfolio.add_portfolio_item`;
* `book_orders` — the Book ledger fed by `book.asend`;
* `bookAttached` — whether `book.subscribe_to_eventkit_event` has been
  applied this session. -/
structure SessionState where
  portfolioUniverse : List SecurityDefinition
  market_data_subscriptions : List SecurityDefinition
  portfolio_items : List PortfolioItem
  book_orders : List Order
  bookAttached : Bool
deriving DecidableEq, Repr

/-- The gateway resolution oracle: `resolve c` stands for
`client.get_contract_details(c)` composed with
`SecurityDefinition.from_contract_details` (both outside `src/`,
modelled from the spec's "resolve full instrument details from the
gateway"); `.error ()` is a raised resolution exception, `.ok defs` the
converted contract-details list. -/
def ResolveOracle : Type :=
  Contract → Except Unit (List SecurityDefinition)

/-- `Trader.update_portfolio_universe`: if the item's stable key is not
yet in the `"portfolio"` universe, resolve the contract (a raise here
aborts the item), append the first resolved definition when resolution
returned at least one, persist the universe, and — when no market-data
subscription exists for that stable key — look the instrument up in the
updated universe and open a subscription keyed by it.  A failed lookup
makes the stream-open step fail (modelled from the spec: a
MarketDataSubscription binds one Instrument, so none can be opened
without one).  `.error` carries the state at the raise. -/
def update_portfolio_universe (resolve : ResolveOracle) (s : SessionState)
    (portfolio_item : PortfolioItem) : Except SessionState SessionState :=
  let univ := s.portfolioUniverse
  if ListHelper.isin univ
      (fun definition => definition.conId == portfolio_item.contract.conId) then
    .ok s
  else
    match resolve portfolio_item.contract with
    | .error _ => .error s
    | .ok contract_details =>
      let univ' :=
        match contract_details with
        | [] => univ
        | d :: _ => univ ++ [d]
      let s1 := { s with portfolioUniverse := univ' }
      if ListHelper.isin s1.market_data_subscriptions
          (fun subscription => subscription.conId == portfolio_item.contract.conId) then
        .ok s1
      else
        match Universe.find_contract univ' portfolio_item.contract with
        | none => .error s1
        | some security =>
          .ok { s1 with
                market_data_subscriptions := s1.market_data_subscriptions ++ [security] }

/-- `portfolio.add_portfolio_item`: record the item in the Portfolio
ledger (the ledger detail is immaterial to the claims; it happens
before `update_portfolio_universe` in `Trader.__update_portfolio`). -/
def add_portfolio_item (s : SessionState) (it : PortfolioItem) : SessionState :=
  { s with portfolio_items := s.portfolio_items ++ [it] }

/-- Observable side effects of one `setup_subscriptions` run, in
program order. -/
inductive Effect where
  | bookSubscribe
  | subscribePositions
  | subscribePortfolio
  | portfolioAsend (item : PortfolioItem)
  | resolveFailureLogged (item : PortfolioItem)
  | reqMarketDataType (n : Nat)
  | reqAllOpenOrders
  | bookAsend (o : Order)
deriving DecidableEq, Repr

/-- One portfolio item's trip through `Trader.__update_portfolio`:
`add_portfolio_item`, then `update_portfolio_universe`.  The delivery
happens through an `AsyncCachedObserver` built with
`capture_asend_exception=True` and `athrow=handle_subscription_exception`
(observer code outside `src/`, modelled from the spec: per-item
resolution failures are reported and skipped, never abort the batch),
so a raise is logged as an effect and the carried state is kept. -/
def processItem (resolve : ResolveOracle) (s : SessionState)
    (it : PortfolioItem) : SessionState × List Effect :=
  let s0 := add_portfolio_item s it
  match update_portfolio_universe resolve s0 it with
  | .ok s' => (s', [Effect.portfolioAsend it])
  | .error s' => (s', [Effect.portfolioAsend it, Effect.resolveFailureLogged it])

/-- The synchronous portfolio-snapshot loop of `setup_subscriptions`
(`for p in self.client.ib.portfolio(): await
self.client.portfolio_subject.asend(p)`): each item is fed through
`processItem`, carrying the state across items. -/
def processItems (resolve : ResolveOracle) (s : SessionState) :
    List PortfolioItem → SessionState × List Effect
  | [] => (s, [])
  | it :: rest =>
    let step := processItem resolve s it
    let tail := processItems resolve step.1 rest
    (tail.1, step.2 ++ tail.2)

/-- `Trader.setup_subscriptions`: raises `ConnectionError` when the
link is down (before any side effect — `.error` carries the untouched
input state), otherwise attaches the Book to the five order-lifecycle
events, subscribes positions and portfolio streams, replays the
synchronous portfolio snapshot through `processItems`, sets the
market-data type, then fetches the authoritative open orders and
replays each into the Book.  Returns the effect trace in program order
together with the final state. -/
def setup_subscriptions (resolve : ResolveOracle) (connected : Bool)
    (portfolio_snapshot : List PortfolioItem) (open_orders : List Order)
    (s : SessionState) : Except SessionState (List Effect × SessionState) :=
  if !connected then
    .error s
  else
    let s0 := { s with bookAttached := true }
    let snap := processItems resolve s0 portfolio_snapshot
    let s2 := { snap.1 with book_orders := snap.1.book_orders ++ open_orders }
    .ok ([Effect.bookSubscribe, Effect.subscribePositions, Effect.subscribePortfolio]
          ++ snap.2
          ++ [Effect.reqMarketDataType 3, Effect.reqAllOpenOrders]
          ++ open_orders.map Effect.bookAsend,
         s2)

/-- Observable side effects of `Trader.connect` (and of
`Trader.disconnected_event`, which re-invokes it), in program order. -/
inductive ConnectEffect where
  | newClient
  | newTickData
  | newUniverseAccessor
  | getAllUniverses
  | clearPortfolioUniverse
  | resetContractSubscriptions
  | resetMarketDataSubscriptions
  | registerConnectedHandler
  | registerDisconnectedHandler
  | clientConnect
deriving DecidableEq, Repr

/-- The effect trace of the body of `Trader.connect`, line by line:
construct the client, tick store and universe accessor, load the
universes, clear the `"portfolio"` universe, reset both subscription
dicts, register the connected/disconnected handlers, and finally call
`client.connect()` (only after which the connected event can fire and
reconciliation begin). -/
def connect_effects : List ConnectEffect :=
  [ConnectEffect.newClient, ConnectEffect.newTickData,
   ConnectEffect.newUniverseAccessor, ConnectEffect.getAllUniverses,
   ConnectEffect.clearPortfolioUniverse, ConnectEffect.resetContractSubscriptions,
   ConnectEffect.resetMarketDataSubscriptions, ConnectEffect.registerConnectedHandler,
   ConnectEffect.registerDisconnectedHandler, ConnectEffect.clientConnect]

/-- `Trader.disconnected_event` logs and then calls `self.connect()`,
so its effect trace is exactly `connect`'s. -/
def disconnected_event_effects : List ConnectEffect :=
  connect_effects

/-- `Trader.clear_portfolio_universe`: empty the `"portfolio"`
universe's definitions and persist the result through the accessor. -/
def clear_portfolio_universe (s : SessionState) : SessionState :=
  { s with portfolioUniverse := [] }

/-- The state transformation of `Trader.connect` on the session state:
the `"portfolio"` universe is cleared (and persisted) and both
subscription dicts are reset. -/
def connect_state (s : SessionState) : SessionState :=
  { clear_portfolio_universe s with market_data_subscriptions := [] }

/-- What one connection attempt against the gateway does: succeed,
raise `ConnectionRefusedError`, or raise some other exception. -/
inductive AttemptResult where
  | success
  | refused
  | fatal
deriving DecidableEq, Repr

/-- Terminal outcome of the decorated `Trader.connect` call: connected,
a `ConnectionRefusedError` re-raised after the backoff budget, or a
non-refusal exception propagated to the caller. -/
inductive ConnectResult where
  | connected
  | refusedError
  | fatalError
deriving DecidableEq, Repr

/-- `backoff.expo`'s wait before retry number `n + 1`: `2 ^ n`. -/
def expo_wait (n : Nat) : Nat := 2 ^ n

/-- The `max_tries=10` bound of the `backoff.on_exception` decorator on
`Trader.connect`. -/
def backoff_max_tries : Nat := 10

/-- The `max_time=120` bound of the `backoff.on_exception` decorator on
`Trader.connect`. -/
def backoff_max_time : Nat := 120

/-- The retry loop of `backoff.on_exception(backoff.expo,
ConnectionRefusedError, max_tries, max_time)` around the `connect`
body (third-party decorator, modelled from its documented semantics):
run the attempt; success returns, a non-refusal exception propagates
immediately, and `ConnectionRefusedError` is re-raised once the try
budget is spent or once the exponential waits would reach the time
budget, else the loop sleeps and retries.  Returns the terminal result
together with the number of attempts made. -/
def backoff_loop (g : Nat → AttemptResult) (max_time : Nat) :
    Nat → Nat → Nat → ConnectResult × Nat
  | 0, attempt, _ => (ConnectResult.refusedError, attempt)
  | tries_left + 1, attempt, elapsed =>
    match g attempt with
    | AttemptResult.success => (ConnectResult.connected, attempt + 1)
    | AttemptResult.fatal => (ConnectResult.fatalError, attempt + 1)
    | AttemptResult.refused =>
      if tries_left = 0 then
        (ConnectResult.refusedError, attempt + 1)
      else if max_time ≤ elapsed + expo_wait attempt then
        (ConnectResult.refusedError, attempt + 1)
      else
        backoff_loop g max_time tries_left (attempt + 1) (elapsed + expo_wait attempt)

/-- The decorated `Trader.connect` driven by gateway attempt behaviour
`g`: the backoff loop starting with the configured budgets. -/
def connect (g : Nat → AttemptResult) : ConnectResult × Nat :=
  backoff_loop g backoff_max_time backoff_max_tries 0 0

/-- Python's built-in `round` (banker's rounding, half to even) on an
exact rational. -/
def pyRound (q : ℚ) : ℤ :=
  let f := ⌊q⌋
  let frac := q - f
  if frac < 1 / 2 then f
  else if 1 / 2 < frac then f + 1
  else if 2 ∣ f then f else f + 1

/-- Python's `round(x, ndigits=2)` on an exact rational. -/
def pyRound2 (q : ℚ) : ℚ :=
  (pyRound (q * 100) : ℚ) / 100

/-- The order-sizing calculation of `Trader.temp_handle_order`:
`quantity = equity_amount / bid`; a computed quantity strictly between
0 and 1 is floored up to one unit; the result is rounded to whole
units with Python's `round`. -/
def computeQuantity (equity_amount bid : ℚ) : ℤ :=
  let quantity := equity_amount / bid
  let quantity := if quantity < 1 ∧ 0 < quantity then 1 else quantity
  pyRound quantity

/-- BUY = 1, SELL = 2: the source's `Action` enum (named `OrderAction`
here because Mathlib already declares an `Action`). -/
inductive OrderAction where
  | BUY
  | SELL
deriving DecidableEq, Repr

/-- `Action.__str__`. -/
def OrderAction.str : OrderAction → String
  | OrderAction.BUY => "BUY"
  | OrderAction.SELL => "SELL"

/-- The limit order built by `temp_handle_order`
(`LimitOrder(action=str(action), totalQuantity=quantity_int,
lmtPrice=limit_price)`). -/
structure LimitOrder where
  action : String
  totalQuantity : ℤ
  lmtPrice : ℚ
deriving DecidableEq, Repr

/-- The `pipe(subject, Pipe[Ticker].take(1))` stage: the snapshot price
stream is bounded to its first value before the observer is attached. -/
def streamTake1 (ticks : List Ticker) : List Ticker :=
  ticks.take 1

/-- `observer.wait_value()` over the values delivered to the cached
observer: resolves with the first delivered value, never if none
arrives (`AsyncCachedObserver` is outside `src/`; modelled from the
spec: a single-slot cache whose waiter resolves on the first value). -/
def waitValue (delivered : List Ticker) : Option Ticker :=
  delivered.head?

/-- `Trader.temp_handle_order` driven by the tick history `ticks` of
the one-time snapshot subscription: bound the stream to one value, wait
for it, size the order from `equity_amount / bid` via
`computeQuantity`, apply the debug-only 10% price adjustments, and
place a limit order at the resulting price.  Returns the placed order,
or `none` when the snapshot stream never produced a value. -/
def temp_handle_order (ticks : List Ticker) (action : OrderAction)
    (equity_amount : ℚ) (delayed : Bool) (debug : Bool) : Option LimitOrder :=
  match waitValue (streamTake1 ticks) with
  | none => none
  | some latest_tick =>
    let quantity_int := computeQuantity equity_amount latest_tick.bid
    let limit_price := latest_tick.bid
    let limit_price :=
      if debug && (action == OrderAction.BUY) then pyRound2 (limit_price * (9 / 10) * (9 / 10))
      else limit_price
    let limit_price :=
      if debug && (action == OrderAction.SELL) then pyRound2 (limit_price * (11 / 10))
      else limit_price
    some { action := action.str, totalQuantity := quantity_int, lmtPrice := limit_price }

/-- A call issued to the gateway by `cancel_order`. -/
inductive GatewayCall where
  | cancelOrder (o : Order)
deriving DecidableEq, Repr

/-- Modelled from the spec: `Book.get_order` (repository code outside
`src/`) — the Book keys its known orders by order id. -/
def Book.get_order (book : List Order) (order_id : Nat) : Option Order :=
  book.find? (fun o => o.orderId == order_id)

/-- `Trader.cancel_order`: look the order up in the Book; only when it
exists and its owning `clientId` equals the session's client id
(`client.client_id_counter`) is `ib.cancelOrder` invoked and its trade
returned; otherwise the mismatch is logged and `None` returned with no
gateway call.  The second component is the list of gateway calls
issued. -/
def cancel_order (book : List Order) (client_id_counter : Nat)
    (order_id : Nat) : Option Trade × List GatewayCall :=
  match Book.get_order book order_id with
  | some order =>
    if order.clientId == client_id_counter then
      (some { order := order }, [GatewayCall.cancelOrder order])
    else
      (none, [])
  | none => (none, [])

/-- The local scope of the nested `handle_subscription_exception`. -/
structure HandlerLocals where
  error : Bool
deriving DecidableEq, Repr

/-- `handle_subscription_exception` under Python scoping: the function
body does `logging.exception(ex); error = True`, and since `error` is
not declared `nonlocal`, the assignment binds a fresh local in the
handler's own scope — the enclosing `setup_subscriptions` frame's
`error` is returned unchanged. -/
def handle_subscription_exception (outer_error : Bool) : Bool × HandlerLocals :=
  (outer_error, { error := true })

/-- The enclosing `error` flag of `setup_subscriptions` after a run in
which the handler was invoked once per delivered exception: initialised
to `False`, threaded through every handler invocation. -/
def outer_error_after (deliveries : List Unit) : Bool :=
  deliveries.foldl (fun outer _ => (handle_subscription_exception outer).1) false

/-- The duplicate-freedom invariant of the claims: no two entries of
the list share a stable instrument key. -/
def KeyUnique (l : List SecurityDefinition) : Prop :=
  l.Pairwise (fun a b => a.conId ≠ b.conId)

/-- The gateway resolution contract: the details resolved for a
contract describe that contract's instrument, i.e. carry its stable
key. -/
def ConIdFaithful (resolve : ResolveOracle) : Prop :=
  ∀ c defs d, resolve c = Except.ok defs → d ∈ defs → d.conId = c.conId

/-- The fresh session state before any reconciliation. -/
def sessionStateEmpty : SessionState :=
  { portfolioUniverse := [], market_data_subscriptions := [],
    portfolio_items := [], book_orders := [], bookAttached := false }

/-- Resolution oracle for witnesses: every contract resolves to one
definition carrying its own stable key. -/
def wResolveOk : ResolveOracle :=
  fun c => Except.ok [{ conId := c.conId, tag := 0 }]

/-- Two portfolio items sharing stable key 7 but distinct as objects. -/
def wItemsSameKey : List PortfolioItem :=
  [{ contract := { conId := 7, ctag := 1 } }, { contract := { conId := 7, ctag := 2 } }]

/-- Resolution oracle for the reconciliation-failure witness: key 5
raises, every other key resolves. -/
def wResolveFail5 : ResolveOracle :=
  fun c =>
    if c.conId == 5 then Except.error ()
    else Except.ok [{ conId := c.conId, tag := 0 }]

/-- Item preceding the failing one in the reconciliation-failure
witness. -/
def wPreItems : List PortfolioItem :=
  [{ contract := { conId := 1, ctag := 0 } }]

/-- The failing item (key 5) of the reconciliation-failure witness. -/
def wBadItem : PortfolioItem :=
  { contract := { conId := 5, ctag := 0 } }

/-- Item following the failing one in the reconciliation-failure
witness. -/
def wPostItems : List PortfolioItem :=
  [{ contract := { conId := 2, ctag := 0 } }]

/-- The session state at the failing item's raise in the
reconciliation-failure witness: key 1 reconciled, keys 1 and 5 in the
Portfolio ledger, nothing for key 5 in universe or subscriptions. -/
def wMidState : SessionState :=
  { portfolioUniverse := [{ conId := 1, tag := 0 }],
    market_data_subscriptions := [{ conId := 1, tag := 0 }],
    portfolio_items := [{ contract := { conId := 1, ctag := 0 } },
                        { contract := { conId := 5, ctag := 0 } }],
    book_orders := [],
    bookAttached := false }

/-- The session state an `update_portfolio_universe` call leaves
behind, whether it returned or raised (the raise carries the state at
the point of the exception). -/
def exceptState : Except SessionState SessionState → SessionState
  | Except.ok s => s
  | Except.error s => s

theorem outer_error_foldl_fixed (b : Bool) (ds : List Unit) :
    ds.foldl (fun outer _ => (handle_subscription_exception outer).1) b = b := by
  induction ds with
  | nil => rfl
  | cons d ds ih => exact ih

/-- C10: with the gateway link down, `setup_subscriptions` raises
`ConnectionError` carrying the untouched input state: no subscription
is attached, no snapshot replayed, and Book, Portfolio, universe
catalog and subscription maps are exactly as before the call. -/
theorem setup_subscriptions_not_connected_no_effect :
    ∀ (resolve : ResolveOracle) (portfolio_snapshot : List PortfolioItem)
      (open_orders : List Order) (s : SessionState),
      setup_subscriptions resolve false portfolio_snapshot open_orders s
        = Except.error s := by
  intro resolve portfolio_snapshot open_orders s
  rfl

/-- C9: the `error = True` assignment inside
`handle_subscription_exception` is dead code under Python scoping: the
handler returns the enclosing `error` flag unchanged (the assignment
only creates a handler-local binding), so the enclosing flag after any
two exception-delivery histories is identical — always `false` — while
the handler's own local is set to `true`. -/
theorem error_flag_assignment_dead :
    (∀ ds1 ds2 : List Unit, outer_error_after ds1 = outer_error_after ds2) ∧
    (∀ ds : List Unit, outer_error_after ds = false) ∧
    (∀ b : Bool, (handle_subscription_exception b).1 = b ∧
      (handle_subscription_exception b).2.error = true) := by
  refine ⟨?_, ?_, ?_⟩
  · intro ds1 ds2
    rw [outer_error_after, outer_error_after,
      outer_error_foldl_fixed, outer_error_foldl_fixed]
  · intro ds
    rw [outer_error_after, outer_error_foldl_fixed]
  · intro b
    exact ⟨rfl, rfl⟩

/-- C5 counterexample: on a reconnect triggered by the gateway
disconnected event, the `"portfolio"` universe IS cleared —
`disconnected_event` re-invokes `connect`, whose body always calls
`clear_portfolio_universe` — refuting the claim that it is not. -/
theorem disconnected_event_clears_portfolio_universe :
    ConnectEffect.clearPortfolioUniverse ∈ disconnected_event_effects := by
  decide

/-- C5 amended: on plain startup the `"portfolio"` universe is cleared
(and the cleared universe persisted) before `client.connect()` — hence
before any reconciliation can begin — and a reconnect triggered by the
gateway disconnected event replays exactly the `connect` sequence, so
the universe is cleared again on reconnect. -/
theorem connect_clears_portfolio_universe :
    (ConnectEffect.clearPortfolioUniverse ∈ connect_effects ∧
      List.indexOf ConnectEffect.clearPortfolioUniverse connect_effects <
        List.indexOf ConnectEffect.clientConnect connect_effects) ∧
    disconnected_event_effects = connect_effects ∧
    (∀ s : SessionState, (connect_state s).portfolioUniverse = []) := by
  refine ⟨by decide, rfl, fun s => rfl⟩

/-- C3: `cancel_order` returns a trade only when the stored order's
owning client id equals the session's client id; when the order is
missing or owned by another client id, it returns the error result
`none` and issues zero gateway calls. -/
theorem cancel_order_ownership :
    ∀ (book : List Order) (client_id_counter order_id : Nat),
      ((cancel_order book client_id_counter order_id).1.isSome →
        ∃ o, Book.get_order book order_id = some o ∧ o.clientId = client_id_counter) ∧
      (∀ o, Book.get_order book order_id = some o → o.clientId ≠ client_id_counter →
        cancel_order book client_id_counter order_id = (none, [])) ∧
      (Book.get_order book order_id = none →
        cancel_order book client_id_counter order_id = (none, [])) := by
  intro book cid oid
  refine ⟨?_, ?_, ?_⟩
  · intro h
    cases hg : Book.get_order book oid with
    | none => rw [cancel_order, hg] at h; simp at h
    | some o =>
      rw [cancel_order, hg] at h
      by_cases hc : o.clientId = cid
      · exact ⟨o, rfl, hc⟩
      · simp [hc] at h
  · intro o hg hc
    rw [cancel_order, hg]
    simp [hc]
  · intro hg
    rw [cancel_order, hg]

theorem cancel_order_ownership_witness :
    cancel_order [{ orderId := 1, clientId := 5 }] 9 1 = (none, []) :=
  (cancel_order_ownership [{ orderId := 1, clientId := 5 }] 9 1).2.1
    { orderId := 1, clientId := 5 } rfl (by decide)

/-- C7: the order-sizing calculation of `temp_handle_order` computes
`equity_amount / bid`, floors a quantity strictly between 0 and 1 up to
one unit, otherwise rounds to whole units with Python's `round`; in
particular notional 50 at price 100 sizes to exactly 1 unit and the
placed order for that input carries quantity 1. -/
theorem temp_handle_order_sizing :
    (∀ equity_amount bid : ℚ, 0 < equity_amount / bid → equity_amount / bid < 1 →
      computeQuantity equity_amount bid = 1) ∧
    (∀ equity_amount bid : ℚ, ¬(0 < equity_amount / bid ∧ equity_amount / bid < 1) →
      computeQuantity equity_amount bid = pyRound (equity_amount / bid)) ∧
    computeQuantity 50 100 = 1 ∧
    (temp_handle_order [{ bid := 100 }] OrderAction.BUY 50 false false).map
        LimitOrder.totalQuantity = some 1 := by
  refine ⟨?_, ?_, ?_, ?_⟩
  · intro e b h0 h1
    simp only [computeQuantity, if_pos (And.intro h1 h0)]
    norm_num [pyRound]
  · intro e b h
    have h' : ¬(e / b < 1 ∧ 0 < e / b) := fun hc => h ⟨hc.2, hc.1⟩
    simp only [computeQuantity, if_neg h']
  · norm_num [computeQuantity, pyRound]
  · norm_num [temp_handle_order, waitValue, streamTake1, computeQuantity, pyRound,
      OrderAction.str]

theorem temp_handle_order_sizing_witness :
    computeQuantity 50 100 = 1 ∧ computeQuantity 300 100 = pyRound (300 / 100) :=
  ⟨temp_handle_order_sizing.1 50 100 (by norm_num) (by norm_num),
   temp_handle_order_sizing.2.1 300 100 (by norm_num)⟩

/-- C8: with debug off, `temp_handle_order` observes exactly one price
snapshot — the stream is bounded to its first value by `take(1)` before
the waiter resolves — and the submitted limit order's price equals that
single observed bid (its quantity sized from it). -/
theorem temp_handle_order_single_snapshot :
    ∀ (t : Ticker) (rest : List Ticker) (a : OrderAction) (e : ℚ) (d : Bool),
      streamTake1 (t :: rest) = [t] ∧
      ∃ ord, temp_handle_order (t :: rest) a e d false = some ord ∧
        ord.lmtPrice = t.bid ∧ ord.totalQuantity = computeQuantity e t.bid := by
  intro t rest a e d
  refine ⟨rfl, ⟨_, rfl, rfl, rfl⟩⟩

theorem backoff_loop_attempts_le (g : Nat → AttemptResult) (mt : Nat) :
    ∀ t a e, (backoff_loop g mt t a e).2 ≤ a + t := by
  intro t
  induction t with
  | zero => intro a e; simp [backoff_loop]
  | succ t ih =>
    intro a e
    cases hg : g a with
    | success => simp [backoff_loop, hg]
    | fatal => simp [backoff_loop, hg]
    | refused =>
      simp only [backoff_loop, hg]
      split_ifs with h1 h2
      · simp
      · simp
      · have := ih (a + 1) (e + expo_wait a)
        omega

theorem backoff_always_refused (g : Nat → AttemptResult)
    (h : ∀ n, g n = AttemptResult.refused) :
    connect g = (ConnectResult.refusedError, 7) := by
  simp only [connect, backoff_max_tries, backoff_max_time]
  norm_num [backoff_loop, h, expo_wait]

/-- C4: `connect`'s backoff retries only connection refusals and is
bounded: against an always-refusing gateway it terminates with the
refusal surfaced (here after 7 attempts, the exponential waits having
reached the 120-second budget before the 10-try budget); every run
makes at most `max_tries` attempts; a non-refusal exception on the
first attempt propagates immediately with no retry (likewise a
success); and a non-refusal exception after two refusals still
propagates at once (3 attempts total). -/
theorem connect_backoff_bounded :
    (∀ g : Nat → AttemptResult, (∀ n, g n = AttemptResult.refused) →
      connect g = (ConnectResult.refusedError, 7)) ∧
    (∀ g : Nat → AttemptResult, (connect g).2 ≤ backoff_max_tries) ∧
    (∀ g : Nat → AttemptResult, g 0 = AttemptResult.fatal →
      connect g = (ConnectResult.fatalError, 1)) ∧
    (∀ g : Nat → AttemptResult, g 0 = AttemptResult.success →
      connect g = (ConnectResult.connected, 1)) ∧
    connect (fun n => if n < 2 then AttemptResult.refused else AttemptResult.fatal) =
      (ConnectResult.fatalError, 3) := by
  refine ⟨backoff_always_refused, ?_, ?_, ?_, ?_⟩
  · intro g
    simpa [connect, backoff_max_tries] using
      backoff_loop_attempts_le g backoff_max_time backoff_max_tries 0 0
  · intro g h
    simp [connect, backoff_max_tries, backoff_max_time, backoff_loop, h]
  · intro g h
    simp [connect, backoff_max_tries, backoff_max_time, backoff_loop, h]
  · norm_num [connect, backoff_max_tries, backoff_max_time, backoff_loop, expo_wait]

theorem connect_backoff_bounded_witness :
    connect (fun _ => AttemptResult.refused) = (ConnectResult.refusedError, 7) ∧
    connect (fun _ => AttemptResult.fatal) = (ConnectResult.fatalError, 1) ∧
    connect (fun _ => AttemptResult.success) = (ConnectResult.connected, 1) :=
  ⟨connect_backoff_bounded.1 (fun _ => AttemptResult.refused) (fun _ => rfl),
   connect_backoff_bounded.2.2.1 (fun _ => AttemptResult.fatal) rfl,
   connect_backoff_bounded.2.2.2.1 (fun _ => AttemptResult.success) rfl⟩

theorem head_mem_left_of_split {α : Type} {b a : α} {l xs ys : List α}
    (hne : b ≠ a) (h : b :: l = xs ++ a :: ys) : b ∈ xs := by
  cases xs with
  | nil =>
    simp only [List.nil_append, List.cons.injEq] at h
    exact absurd h.1 hne
  | cons x xs' =>
    simp only [List.cons_append, List.cons.injEq] at h
    rw [← h.1]
    exact List.mem_cons_self b xs'

/-- C2: in every connected run of `setup_subscriptions`, the Book's
subscription to the live order-lifecycle events strictly precedes, in
the effect trace, both the authoritative open-orders fetch and every
replay of an open order into the Book — and every open order of the
snapshot is indeed replayed. -/
theorem open_orders_replay_after_book_attach :
    ∀ (resolve : ResolveOracle) (portfolio_snapshot : List PortfolioItem)
      (open_orders : List Order) (s : SessionState) (tr : List Effect)
      (s' : SessionState),
      setup_subscriptions resolve true portfolio_snapshot open_orders s
        = Except.ok (tr, s') →
      (∀ (xs ys : List Effect) (o : Order),
        tr = xs ++ Effect.bookAsend o :: ys → Effect.bookSubscribe ∈ xs) ∧
      (∀ xs ys : List Effect,
        tr = xs ++ Effect.reqAllOpenOrders :: ys → Effect.bookSubscribe ∈ xs) ∧
      (∀ o ∈ open_orders, Effect.bookAsend o ∈ tr) := by
  intro resolve portfolio_snapshot open_orders s tr s' h1
  have htr : tr = Effect.bookSubscribe ::
      ([Effect.subscribePositions, Effect.subscribePortfolio]
        ++ (processItems resolve { s with bookAttached := true } portfolio_snapshot).2
        ++ [Effect.reqMarketDataType 3, Effect.reqAllOpenOrders]
        ++ open_orders.map Effect.bookAsend) := by
    simp only [setup_subscriptions, Bool.not_true, Bool.false_eq_true, if_false,
      Except.ok.injEq, Prod.mk.injEq] at h1
    rw [← h1.1]
    simp
  refine ⟨?_, ?_, ?_⟩
  · intro xs ys o hsplit
    rw [htr] at hsplit
    exact head_mem_left_of_split (by simp) hsplit
  · intro xs ys hsplit
    rw [htr] at hsplit
    exact head_mem_left_of_split (by simp) hsplit
  · intro o ho
    rw [htr]
    simp only [List.mem_cons, List.mem_append, List.mem_map]
    right; right
    exact ⟨o, ho, rfl⟩

theorem open_orders_replay_after_book_attach_witness :
    Effect.bookSubscribe ∈ [Effect.bookSubscribe, Effect.subscribePositions,
      Effect.subscribePortfolio, Effect.reqMarketDataType 3, Effect.reqAllOpenOrders] :=
  (open_orders_replay_after_book_attach wResolveOk [] [{ orderId := 1, clientId := 1 }]
    sessionStateEmpty
    [Effect.bookSubscribe, Effect.subscribePositions, Effect.subscribePortfolio,
      Effect.reqMarketDataType 3, Effect.reqAllOpenOrders,
      Effect.bookAsend { orderId := 1, clientId := 1 }]
    { portfolioUniverse := [], market_data_subscriptions := [], portfolio_items := [],
      book_orders := [{ orderId := 1, clientId := 1 }], bookAttached := true }
    (by rfl)).1
    [Effect.bookSubscribe, Effect.subscribePositions, Effect.subscribePortfolio,
      Effect.reqMarketDataType 3, Effect.reqAllOpenOrders]
    [] { orderId := 1, clientId := 1 } (by rfl)

theorem keyUnique_append_of_not_isin {l : List SecurityDefinition}
    {d : SecurityDefinition} {k : Nat} (hu : KeyUnique l)
    (hnotin : ListHelper.isin l (fun x => x.conId == k) = false)
    (hd : d.conId = k) : KeyUnique (l ++ [d]) := by
  rw [KeyUnique, List.pairwise_append]
  refine ⟨hu, List.pairwise_singleton _ _, ?_⟩
  intro a ha b hb
  simp only [List.mem_singleton] at hb
  subst hb
  intro heq
  have hak : (a.conId == k) = true := by simp [heq, hd]
  have : ListHelper.isin l (fun x => x.conId == k) = true :=
    List.any_eq_true.mpr ⟨a, ha, hak⟩
  rw [hnotin] at this
  cases this

theorem update_portfolio_universe_inv (resolve : ResolveOracle)
    (hres : ConIdFaithful resolve) (s : SessionState) (it : PortfolioItem)
    (hu : KeyUnique s.portfolioUniverse)
    (hm : KeyUnique s.market_data_subscriptions) :
    KeyUnique (exceptState (update_portfolio_universe resolve s it)).portfolioUniverse ∧
    KeyUnique (exceptState (update_portfolio_universe resolve s it)).market_data_subscriptions := by
  simp only [update_portfolio_universe]
  by_cases h1 : ListHelper.isin s.portfolioUniverse
      (fun definition => definition.conId == it.contract.conId) = true
  · simp only [h1, if_true]
    exact ⟨hu, hm⟩
  · have h1' : ListHelper.isin s.portfolioUniverse
        (fun definition => definition.conId == it.contract.conId) = false := by
      simpa using h1
    simp only [h1', Bool.false_eq_true, if_false]
    cases hres' : resolve it.contract with
    | error e => exact ⟨hu, hm⟩
    | ok contract_details =>
      cases contract_details with
      | nil =>
        by_cases h2 : ListHelper.isin s.market_data_subscriptions
            (fun subscription => subscription.conId == it.contract.conId) = true
        · simp only [h2, if_true]
          exact ⟨hu, hm⟩
        · have h2' : ListHelper.isin s.market_data_subscriptions
              (fun subscription => subscription.conId == it.contract.conId) = false := by
            simpa using h2
          simp only [h2', Bool.false_eq_true, if_false]
          cases hf : Universe.find_contract s.portfolioUniverse it.contract with
          | none => exact ⟨hu, hm⟩
          | some sec =>
            have hsec : sec.conId = it.contract.conId := by
              have := List.find?_some hf
              simpa using this
            exact ⟨hu, keyUnique_append_of_not_isin hm h2' hsec⟩
      | cons d rest =>
        have hd : d.conId = it.contract.conId :=
          hres it.contract (d :: rest) d hres' (List.mem_cons_self _ _)
        have hu' : KeyUnique (s.portfolioUniverse ++ [d]) :=
          keyUnique_append_of_not_isin hu h1' hd
        by_cases h2 : ListHelper.isin s.market_data_subscriptions
            (fun subscription => subscription.conId == it.contract.conId) = true
        · simp only [h2, if_true]
          exact ⟨hu', hm⟩
        · have h2' : ListHelper.isin s.market_data_subscriptions
              (fun subscription => subscription.conId == it.contract.conId) = false := by
            simpa using h2
          simp only [h2', Bool.false_eq_true, if_false]
          cases hf : Universe.find_contract (s.portfolioUniverse ++ [d]) it.contract with
          | none => exact ⟨hu', hm⟩
          | some sec =>
            have hsec : sec.conId = it.contract.conId := by
              have := List.find?_some hf
              simpa using this
            exact ⟨hu', keyUnique_append_of_not_isin hm h2' hsec⟩

theorem processItem_fst (resolve : ResolveOracle) (s : SessionState)
    (it : PortfolioItem) :
    (processItem resolve s it).1 =
      exceptState (update_portfolio_universe resolve (add_portfolio_item s it) it) := by
  simp only [processItem]
  cases update_portfolio_universe resolve (add_portfolio_item s it) it <;> rfl

theorem processItem_inv (resolve : ResolveOracle) (hres : ConIdFaithful resolve)
    (s : SessionState) (it : PortfolioItem)
    (hu : KeyUnique s.portfolioUniverse)
    (hm : KeyUnique s.market_data_subscriptions) :
    KeyUnique (processItem resolve s it).1.portfolioUniverse ∧
    KeyUnique (processItem resolve s it).1.market_data_subscriptions := by
  rw [processItem_fst]
  exact update_portfolio_universe_inv resolve hres (add_portfolio_item s it) it hu hm

theorem processItems_inv (resolve : ResolveOracle) (hres : ConIdFaithful resolve) :
    ∀ (items : List PortfolioItem) (s : SessionState),
      KeyUnique s.portfolioUniverse → KeyUnique s.market_data_subscriptions →
      KeyUnique (processItems resolve s items).1.portfolioUniverse ∧
      KeyUnique (processItems resolve s items).1.market_data_subscriptions := by
  intro items
  induction items with
  | nil => intro s hu hm; exact ⟨hu, hm⟩
  | cons it rest ih =>
    intro s hu hm
    have hstep := processItem_inv resolve hres s it hu hm
    have htail := ih (processItem resolve s it).1 hstep.1 hstep.2
    simpa [processItems] using htail

/-- C1: reconciling any sequence of portfolio items — including feeding
the whole sequence again over the already-reconciled state — keeps both
the `"portfolio"` universe and the market-data subscription map free of
duplicate stable instrument keys, provided the gateway resolves a
contract to definitions carrying that contract's own stable key.
Membership is decided by `conId` equality in the embedded code, so two
distinct item objects sharing a key (such as the witness's `P1`, `P2`)
contribute at most one universe entry and one subscription. -/
theorem update_portfolio_universe_no_duplicates :
    ∀ (resolve : ResolveOracle), ConIdFaithful resolve →
    ∀ (items : List PortfolioItem) (s : SessionState),
      KeyUnique s.portfolioUniverse → KeyUnique s.market_data_subscriptions →
      KeyUnique (processItems resolve s items).1.portfolioUniverse ∧
      KeyUnique (processItems resolve s items).1.market_data_subscriptions :=
  fun resolve hres => processItems_inv resolve hres

theorem update_portfolio_universe_no_duplicates_witness :
    KeyUnique (processItems wResolveOk sessionStateEmpty
      (wItemsSameKey ++ wItemsSameKey)).1.portfolioUniverse ∧
    KeyUnique (processItems wResolveOk sessionStateEmpty
      (wItemsSameKey ++ wItemsSameKey)).1.market_data_subscriptions :=
  update_portfolio_universe_no_duplicates wResolveOk
    (by
      intro c defs d h hmem
      simp only [wResolveOk, Except.ok.injEq] at h
      rw [← h] at hmem
      simp only [List.mem_singleton] at hmem
      rw [hmem])
    (wItemsSameKey ++ wItemsSameKey) sessionStateEmpty
    (List.Pairwise.nil) (List.Pairwise.nil)

theorem processItems_append (resolve : ResolveOracle) :
    ∀ (xs ys : List PortfolioItem) (s : SessionState),
      processItems resolve s (xs ++ ys) =
        ((processItems resolve (processItems resolve s xs).1 ys).1,
         (processItems resolve s xs).2
           ++ (processItems resolve (processItems resolve s xs).1 ys).2) := by
  intro xs
  induction xs with
  | nil => intro ys s; simp [processItems]
  | cons x xs' ih =>
    intro ys s
    simp only [List.cons_append, processItems, List.append_eq]
    rw [ih ys (processItem resolve s x).1]
    simp [List.append_assoc]

/-- C6: a per-item resolution failure during portfolio reconciliation
is reported (a failure-logged effect appears for that item) and does
not abort the batch: the run over `pre ++ bad :: post` equals the run
over `pre`, followed by the failing item's reported delivery, followed
by the run over `post` continuing from the failing item's carried
state — every remaining item is still fed through its resolve,
universe-update and subscription-open steps. -/
theorem resolve_failure_does_not_abort :
    ∀ (resolve : ResolveOracle) (s : SessionState) (pre : List PortfolioItem)
      (bad : PortfolioItem) (post : List PortfolioItem) (s_mid : SessionState),
      update_portfolio_universe resolve
          (add_portfolio_item (processItems resolve s pre).1 bad) bad
        = Except.error s_mid →
      processItems resolve s (pre ++ bad :: post) =
        ((processItems resolve s_mid post).1,
         (processItems resolve s pre).2
           ++ ([Effect.portfolioAsend bad, Effect.resolveFailureLogged bad]
           ++ (processItems resolve s_mid post).2)) := by
  intro resolve s pre bad post s_mid h
  have hstep : processItem resolve (processItems resolve s pre).1 bad
      = (s_mid, [Effect.portfolioAsend bad, Effect.resolveFailureLogged bad]) := by
    simp only [processItem, h]
  rw [processItems_append]
  simp [processItems, hstep]

theorem resolve_failure_does_not_abort_witness :
    processItems wResolveFail5 sessionStateEmpty (wPreItems ++ wBadItem :: wPostItems) =
      ((processItems wResolveFail5 wMidState wPostItems).1,
       (processItems wResolveFail5 sessionStateEmpty wPreItems).2
         ++ ([Effect.portfolioAsend wBadItem, Effect.resolveFailureLogged wBadItem]
         ++ (processItems wResolveFail5 wMidState wPostItems).2)) :=
  resolve_failure_does_not_abort wResolveFail5 sessionStateEmpty wPreItems wBadItem
    wPostItems wMidState (by rfl)
